import Mathlib

/-!
Shallow embedding of `src/api-gateway-python/main.py` (Growth Pattern API
Gateway): the streamed calculation generator `generate_calculation_events`,
the synchronous endpoint `calculate_growth`, and the journal helper
`log_event`, together with the MongoDB-backed state they mutate.

Modelling conventions:
* Python floats are modelled as exact rationals (`ℚ`); the claims settled
  here do not depend on rounding.  Python ints are `ℤ`.
* The two MongoDB collections are lists of documents inside a `DB` record.
* Persistence failures are modelled by an `Env` of Boolean failure flags,
  one per call site of `insert_one` / `update_one` / `log_event` (per-step
  journal failures are functions of the step index).  A failing call is a
  raised exception: it writes nothing to the store.
* Every journal-write call that is *initiated* (whether or not it fails) is
  recorded in an `attempts` trace, mirroring "the log_event call was made".
* Wall-clock timestamps (`datetime.utcnow`) are omitted: no claim here is
  about real time.  Exception message texts from pymongo are opaque; the
  model uses fixed strings per failing operation.
-/

namespace GrowthGateway

/-- A JSON-like value appearing in journal payloads. -/
inductive JVal where
  | s : String → JVal
  | q : ℚ → JVal
  | z : ℤ → JVal
deriving DecidableEq, Repr

/-- A structured journal payload: the `data` dict passed to `log_event`. -/
abbrev Payload := List (String × JVal)

/-- Request body of both endpoints (`CalculationRequest` in main.py). -/
structure CalculationRequest where
  base : ℚ
  exponent : ℤ
deriving DecidableEq, Repr

/-- A document of the `calculation_events` collection, as built by
`log_event` (main.py lines 349-355).  `data = none` models a JSON null. -/
structure EventDoc where
  calculation_id : String
  event_type : String
  message : String
  data : Option Payload
deriving DecidableEq, Repr

/-- A document of the `calculations` collection.  `completed_at_set` models
whether `completed_at` holds a timestamp rather than null. -/
structure CalcDoc where
  id : String
  base : ℚ
  exponent : ℤ
  status : String
  completed_at_set : Bool
  linear_result : Option ℚ
  exponential_result : Option ℚ
  total_steps : Option ℤ
deriving DecidableEq, Repr

/-- The MongoDB state: both collections. -/
structure DB where
  calculations : List CalcDoc
  events : List EventDoc
deriving DecidableEq, Repr

def emptyDB : DB := ⟨[], []⟩

/-- Failure environment: which persistence calls raise.  One flag per call
site; the per-step journal writes fail as a function of the step index. -/
structure Env where
  insertFails : Bool
  logStartedFails : Bool
  logLinearFails : ℕ → Bool
  logExpFails : ℕ → Bool
  updateFails : Bool
  logCompletedFails : Bool
  logErrorFails : Bool

/-- An SSE message yielded by `generate_calculation_events` (the code
serializes these as `data: {json}` lines; we keep the structured form). -/
inductive StreamEvent where
  | start (calculation_id : String) (base : ℚ) (exponent : ℤ)
  | step (i : ℕ) (linear_op : String) (linear : ℚ) (exp_op : String) (exponential : ℚ)
  | complete (calculation_id : String) (linear_result : ℚ) (exponential_result : ℚ)
      (total_steps : ℤ)
  | error (message : String)
deriving DecidableEq, Repr

/-- State threaded through one run of the generator: the messages yielded so
far, the store, and the trace of initiated journal writes. -/
structure RunState where
  emitted : List StreamEvent
  db : DB
  attempts : List EventDoc
deriving Repr

/-- `yield` one SSE message. -/
def emit (st : RunState) (e : StreamEvent) : RunState :=
  { st with emitted := st.emitted ++ [e] }

/-- The event document built by `log_event`: Python stores `data or {}`, so
a `None` (and an empty) payload is replaced by the empty dict — the stored
field is never null. -/
def eventDoc (calculation_id event_type message : String) (data : Option Payload) :
    EventDoc :=
  ⟨calculation_id, event_type, message, some (data.getD [])⟩

/-- `log_event` (main.py lines 347-356) under a failure flag: the call is
always recorded as initiated; on success the document is inserted into the
`calculation_events` collection, on failure (raised exception) nothing is
stored.  Returns the new state and whether the call succeeded. -/
def log_event (fails : Bool) (cid etype msg : String) (d : Option Payload)
    (st : RunState) : RunState × Bool :=
  let doc := eventDoc cid etype msg d
  let st := { st with attempts := st.attempts ++ [doc] }
  if fails then (st, false)
  else ({ st with db := { st.db with events := st.db.events ++ [doc] } }, true)

/-- The record inserted at validation success (main.py lines 90-99):
status `in_progress`, null `completed_at`, no results yet. -/
def initialRecord (cid : String) (req : CalculationRequest) : CalcDoc :=
  { id := cid
    base := req.base
    exponent := req.exponent
    status := "in_progress"
    completed_at_set := false
    linear_result := none
    exponential_result := none
    total_steps := none }

/-- The `update_one` that marks a record completed with its totals
(main.py lines 164-175 and 274-285). -/
def updateCompleted (cid : String) (linF expF : ℚ) (steps : ℤ) (db : DB) : DB :=
  { db with
    calculations := db.calculations.map fun c =>
      if c.id = cid then
        { c with
          status := "completed"
          completed_at_set := true
          linear_result := some linF
          exponential_result := some expF
          total_steps := some steps }
      else c }

/-- The step message for index `i` (main.py lines 126-140): linear value
`base * i`, exponential value `base ^ i`, with their operation labels. -/
def stepEvent (b : ℚ) (i : ℕ) : StreamEvent :=
  .step i (toString b ++ " × " ++ toString i) (b * (i : ℚ))
    (toString b ++ "^" ++ toString i) (b ^ i)

/-- One iteration of the streaming loop (main.py lines 118-155): yield the
step message, then `try:` journal a `linear_step` and an `exponential_step`
event `except:` print a warning.  A failing linear write skips the
exponential write for that step; either failure is swallowed. -/
def stepIter (env : Env) (cid : String) (b : ℚ) (st : RunState) (i : ℕ) : RunState :=
  let linear_result : ℚ := b * (i : ℚ)
  let exponential_result : ℚ := b ^ i
  let st := emit st (stepEvent b i)
  let r := log_event (env.logLinearFails i) cid "linear_step"
    ("Step " ++ toString i ++ ": " ++ toString b ++ " × " ++ toString i ++ " = "
      ++ toString linear_result)
    (some [("step", .z (i : ℤ)), ("result", .q linear_result), ("type", .s "linear")]) st
  if r.2 then
    (log_event (env.logExpFails i) cid "exponential_step"
      ("Step " ++ toString i ++ ": " ++ toString b ++ "^" ++ toString i ++ " = "
        ++ toString exponential_result)
      (some [("step", .z (i : ℤ)), ("result", .q exponential_result),
        ("type", .s "exponential")]) r.1).1
  else r.1

/-- The outer `except Exception` handler of the stream generator (main.py
lines 195-202): yield an `error` message, then — only when `calculation_id`
is already bound — `try:` journal a `calculation_error` event `except: pass`.
The record is not touched. -/
def errorExit (env : Env) (cid msg : String) (hasId : Bool) (st : RunState) : RunState :=
  let st := emit st (.error msg)
  if hasId then
    (log_event env.logErrorFails cid "calculation_error" ("Error: " ++ msg)
      (some [("error", .s msg)]) st).1
  else st

/-- The SSE generator `generate_calculation_events` (main.py lines 78-202),
run to exhaustion from store state `db0`, with `cid` the identifier MongoDB
assigns to the inserted record. -/
def generate_calculation_events (env : Env) (cid : String) (db0 : DB)
    (req : CalculationRequest) : RunState :=
  let st0 : RunState := ⟨[], db0, []⟩
  if req.base ≤ 0 then
    emit st0 (.error "Base must be positive")
  else if req.exponent ≤ 0 ∨ 100 < req.exponent then
    emit st0 (.error "Exponent must be between 1 and 100")
  else if env.insertFails then
    -- insert_one raised before calculation_id was bound: the outer handler
    -- yields the error but cannot journal against a record id.
    errorExit env cid "insert_one failed" false st0
  else
    let st := { st0 with
      db := { st0.db with calculations := st0.db.calculations ++ [initialRecord cid req] } }
    let st := emit st (.start cid req.base req.exponent)
    let r := log_event env.logStartedFails cid "calculation_started"
      ("Starting calculation: base=" ++ toString req.base ++ ", exponent="
        ++ toString req.exponent)
      (some [("base", .q req.base), ("exponent", .z req.exponent)]) st
    if r.2 then
      let st := (List.range' 1 req.exponent.toNat).foldl (stepIter env cid req.base) r.1
      let linear_final : ℚ := req.base * (req.exponent : ℚ)
      let exponential_final : ℚ := req.base ^ req.exponent.toNat
      let st :=
        if env.updateFails then st
        else
          let st := { st with
            db := updateCompleted cid linear_final exponential_final req.exponent st.db }
          (log_event env.logCompletedFails cid "calculation_completed"
            "Calculation completed successfully" none st).1
      emit st (.complete cid linear_final exponential_final req.exponent)
    else
      -- the calculation_started log_event is not guarded by a local try:
      -- its exception reaches the outer handler, with calculation_id bound.
      errorExit env cid "log_event failed" true r.1

/-- The HTTP wrapper of the streamed endpoint (main.py lines 204-213): a
`StreamingResponse` over the generator, with FastAPI's default 200 status. -/
structure StreamingResponse where
  status_code : ℕ
  media_type : String
  body : List StreamEvent
deriving DecidableEq, Repr

def calculate_growth_stream (env : Env) (cid : String) (db0 : DB)
    (req : CalculationRequest) : StreamingResponse × RunState :=
  let st := generate_calculation_events env cid db0 req
  (⟨200, "text/event-stream", st.emitted⟩, st)

/-- One entry of `linear_logs` / `exponential_logs` (`StepLog` in main.py,
timestamp omitted). -/
structure StepLog where
  step : ℕ
  operation : String
  result : ℚ
deriving DecidableEq, Repr

/-- `CalculationResponse` of the synchronous endpoint (timestamps omitted). -/
structure CalculationResponse where
  calculation_id : String
  base : ℚ
  exponent : ℤ
  linear_result : ℚ
  exponential_result : ℚ
  linear_logs : List StepLog
  exponential_logs : List StepLog
  total_steps : ℤ
deriving DecidableEq, Repr

/-- The outcome the caller of the synchronous endpoint observes: a normal
response, a raised `HTTPException status detail`, or an exception escaping
the handler unhandled (FastAPI's framework-level 500). -/
inductive SyncOutcome where
  | ok (resp : CalculationResponse)
  | httpError (status_code : ℕ) (detail : String)
  | unhandled (message : String)
deriving DecidableEq, Repr

/-- The `except Exception` handler of `calculate_growth` (main.py lines
304-307): journal `calculation_error` (against "unknown" when no record id
is bound), then raise HTTPException 500.  This `log_event` call is itself
unguarded: if it raises, its exception escapes the endpoint. -/
def syncError (env : Env) (hasId : Bool) (cid msg : String) (st : RunState) :
    SyncOutcome × RunState :=
  let target := if hasId then cid else "unknown"
  let r := log_event env.logErrorFails target "calculation_error" ("Error: " ++ msg)
    (some [("error", .s msg)]) st
  if r.2 then (.httpError 500 msg, r.1) else (.unhandled "log_event failed", r.1)

/-- One iteration of the synchronous loop (main.py lines 250-267): append a
linear and an exponential `StepLog`; no journal write is made here. -/
def syncStep (b : ℚ) (logs : List StepLog × List StepLog) (i : ℕ) :
    List StepLog × List StepLog :=
  let linear_result : ℚ := b * (i : ℚ)
  let exponential_result : ℚ := b ^ i
  (logs.1 ++ [⟨i, toString b ++ " × " ++ toString i, linear_result⟩],
   logs.2 ++ [⟨i, toString b ++ "^" ++ toString i, exponential_result⟩])

/-- The synchronous endpoint `calculate_growth` (main.py lines 215-307).
The `emitted` component of the returned state is unused (always empty). -/
def calculate_growth (env : Env) (cid : String) (db0 : DB)
    (req : CalculationRequest) : SyncOutcome × RunState :=
  let st0 : RunState := ⟨[], db0, []⟩
  if req.base ≤ 0 then
    (.httpError 400 "Base must be positive", st0)
  else if req.exponent ≤ 0 ∨ 100 < req.exponent then
    (.httpError 400 "Exponent must be between 1 and 100", st0)
  else if env.insertFails then
    syncError env false cid "insert_one failed" st0
  else
    let st := { st0 with
      db := { st0.db with calculations := st0.db.calculations ++ [initialRecord cid req] } }
    let r := log_event env.logStartedFails cid "calculation_started"
      ("Starting calculation: base=" ++ toString req.base ++ ", exponent="
        ++ toString req.exponent)
      (some [("base", .q req.base), ("exponent", .z req.exponent)]) st
    if r.2 then
      let logs := (List.range' 1 req.exponent.toNat).foldl (syncStep req.base) ([], [])
      let linear_final : ℚ := req.base * (req.exponent : ℚ)
      let exponential_final : ℚ := req.base ^ req.exponent.toNat
      if env.updateFails then syncError env true cid "update_one failed" r.1
      else
        let st := { r.1 with
          db := updateCompleted cid linear_final exponential_final req.exponent r.1.db }
        let r2 := log_event env.logCompletedFails cid "calculation_completed"
          "Calculation completed successfully" none st
        if r2.2 then
          (.ok
            { calculation_id := cid
              base := req.base
              exponent := req.exponent
              linear_result := linear_final
              exponential_result := exponential_final
              linear_logs := logs.1
              exponential_logs := logs.2
              total_steps := req.exponent }, r2.1)
        else syncError env true cid "log_event failed" r2.1
    else syncError env true cid "log_event failed" r.1

/-! ### Projections of the emitted stream -/

/-- The `(step index, linear value, exponential value)` triples of the
`step` messages, in emission order. -/
def stepsOf (evts : List StreamEvent) : List (ℕ × ℚ × ℚ) :=
  evts.filterMap fun e =>
    match e with
    | .step i _ lin _ ex => some (i, lin, ex)
    | _ => none

/-- The `(linear_result, exponential_result, total_steps)` of the `complete`
messages, in emission order. -/
def completesOf (evts : List StreamEvent) : List (ℚ × ℚ × ℤ) :=
  evts.filterMap fun e =>
    match e with
    | .complete _ l x n => some (l, x, n)
    | _ => none

/-- The messages of the `error` events, in emission order. -/
def errorsOf (evts : List StreamEvent) : List String :=
  evts.filterMap fun e =>
    match e with
    | .error m => some m
    | _ => none

/-- The full message sequence of a successful streamed run: `start`, the
steps in order, then `complete`. -/
def normalStream (cid : String) (req : CalculationRequest) : List StreamEvent :=
  .start cid req.base req.exponent ::
    (List.range' 1 req.exponent.toNat).map (stepEvent req.base) ++
      [.complete cid (req.base * (req.exponent : ℚ)) (req.base ^ req.exponent.toNat)
        req.exponent]

/-- The fully reliable environment: no persistence call fails. -/
def envOK : Env :=
  ⟨false, false, fun _ => false, fun _ => false, false, false, false⟩

/-- Only the `calculation_started` journal write fails. -/
def envStartFail : Env := { envOK with logStartedFails := true }

/-- Only the final `update_one` status update fails. -/
def envUpdateFail : Env := { envOK with updateFails := true }

/-- Every journal write after `calculation_started` fails, and so does the
error-journal write; the record store itself works. -/
def envJournalFail : Env :=
  { envOK with
    logLinearFails := fun _ => true
    logExpFails := fun _ => true
    logCompletedFails := true
    logErrorFails := true }

/-- The record after the successful final `update_one`: status `completed`,
totals stored, step count stored. -/
def completedRecord (cid : String) (req : CalculationRequest) : CalcDoc :=
  { id := cid
    base := req.base
    exponent := req.exponent
    status := "completed"
    completed_at_set := true
    linear_result := some (req.base * (req.exponent : ℚ))
    exponential_result := some (req.base ^ req.exponent.toNat)
    total_steps := some req.exponent }

/-- The `event_type` sequence of the per-step journal writes of a run of
`n` steps: `linear_step, exponential_step` per step. -/
def stepTypes (n : ℕ) : List String :=
  (List.range' 1 n).flatMap fun _ => ["linear_step", "exponential_step"]

/-- Every stored journal event has a non-null `data` field. -/
def dataOk (db : DB) : Bool :=
  db.events.all fun e => e.data.isSome

/-- The `calculation_started` journal document. -/
def startedDoc (cid : String) (req : CalculationRequest) : EventDoc :=
  eventDoc cid "calculation_started"
    ("Starting calculation: base=" ++ toString req.base ++ ", exponent="
      ++ toString req.exponent)
    (some [("base", .q req.base), ("exponent", .z req.exponent)])

/-- The `calculation_completed` journal document (no payload passed). -/
def completedDoc (cid : String) : EventDoc :=
  eventDoc cid "calculation_completed" "Calculation completed successfully" none

/-! ### Basic projection lemmas -/

@[simp] theorem emit_emitted (st : RunState) (e : StreamEvent) :
    (emit st e).emitted = st.emitted ++ [e] := rfl

@[simp] theorem emit_db (st : RunState) (e : StreamEvent) :
    (emit st e).db = st.db := rfl

@[simp] theorem emit_attempts (st : RunState) (e : StreamEvent) :
    (emit st e).attempts = st.attempts := rfl

@[simp] theorem log_event_fst_emitted (f : Bool) (c t m : String) (d : Option Payload)
    (st : RunState) : ((log_event f c t m d st).1).emitted = st.emitted := by
  cases f <;> rfl

@[simp] theorem log_event_fst_calculations (f : Bool) (c t m : String) (d : Option Payload)
    (st : RunState) : ((log_event f c t m d st).1).db.calculations = st.db.calculations := by
  cases f <;> rfl

@[simp] theorem log_event_snd (f : Bool) (c t m : String) (d : Option Payload)
    (st : RunState) : (log_event f c t m d st).2 = !f := by
  cases f <;> rfl

@[simp] theorem log_event_fst_attemptTypes (f : Bool) (c t m : String) (d : Option Payload)
    (st : RunState) :
    ((log_event f c t m d st).1).attempts.map (·.event_type)
      = st.attempts.map (·.event_type) ++ [t] := by
  cases f <;> simp [log_event, eventDoc]

theorem log_event_fst_events_of_fail (c t m : String) (d : Option Payload)
    (st : RunState) : ((log_event true c t m d st).1).db.events = st.db.events := rfl

theorem log_event_fst_events_of_ok (c t m : String) (d : Option Payload)
    (st : RunState) :
    ((log_event false c t m d st).1).db.events = st.db.events ++ [eventDoc c t m d] := rfl

/-! ### The streaming step loop -/

theorem stepIter_emitted (env : Env) (cid : String) (b : ℚ) (st : RunState) (i : ℕ) :
    (stepIter env cid b st i).emitted = st.emitted ++ [stepEvent b i] := by
  cases h : env.logLinearFails i <;> simp [stepIter, h]

theorem stepIter_calculations (env : Env) (cid : String) (b : ℚ) (st : RunState) (i : ℕ) :
    (stepIter env cid b st i).db.calculations = st.db.calculations := by
  cases h : env.logLinearFails i <;> simp [stepIter, h]

theorem stepIter_attemptTypes (env : Env) (cid : String) (b : ℚ) (st : RunState) (i : ℕ)
    (h : env.logLinearFails i = false) :
    (stepIter env cid b st i).attempts.map (·.event_type)
      = st.attempts.map (·.event_type) ++ ["linear_step", "exponential_step"] := by
  simp [stepIter, h]

theorem foldl_stepIter_emitted (env : Env) (cid : String) (b : ℚ) :
    ∀ (l : List ℕ) (st : RunState),
      ((l.foldl (stepIter env cid b) st).emitted) = st.emitted ++ l.map (stepEvent b)
  | [], st => by simp
  | i :: l, st => by
    rw [List.foldl_cons, foldl_stepIter_emitted env cid b l, stepIter_emitted]
    simp

theorem foldl_stepIter_calculations (env : Env) (cid : String) (b : ℚ) :
    ∀ (l : List ℕ) (st : RunState),
      ((l.foldl (stepIter env cid b) st).db.calculations) = st.db.calculations
  | [], st => rfl
  | i :: l, st => by
    rw [List.foldl_cons, foldl_stepIter_calculations env cid b l, stepIter_calculations]

theorem foldl_stepIter_attemptTypes (env : Env) (cid : String) (b : ℚ)
    (hlin : ∀ i, env.logLinearFails i = false) :
    ∀ (l : List ℕ) (st : RunState),
      ((l.foldl (stepIter env cid b) st).attempts.map (·.event_type))
        = st.attempts.map (·.event_type)
            ++ l.flatMap (fun _ => ["linear_step", "exponential_step"])
  | [], st => by simp
  | i :: l, st => by
    rw [List.foldl_cons, foldl_stepIter_attemptTypes env cid b hlin l,
      stepIter_attemptTypes env cid b st i (hlin i)]
    simp

/-! ### Branch lemmas for the stream generator -/

theorem gen_invalid_base (env : Env) (cid : String) (db0 : DB) (req : CalculationRequest)
    (h : req.base ≤ 0) :
    generate_calculation_events env cid db0 req
      = ⟨[.error "Base must be positive"], db0, []⟩ := by
  simp [generate_calculation_events, h, emit]

theorem gen_invalid_exponent (env : Env) (cid : String) (db0 : DB)
    (req : CalculationRequest) (hb : 0 < req.base)
    (he : req.exponent ≤ 0 ∨ 100 < req.exponent) :
    generate_calculation_events env cid db0 req
      = ⟨[.error "Exponent must be between 1 and 100"], db0, []⟩ := by
  simp [generate_calculation_events, not_le.mpr hb, he, emit]

theorem gen_insertFail (env : Env) (cid : String) (db0 : DB) (req : CalculationRequest)
    (hb : 0 < req.base) (hlo : 1 ≤ req.exponent) (hhi : req.exponent ≤ 100)
    (hins : env.insertFails = true) :
    generate_calculation_events env cid db0 req
      = ⟨[.error "insert_one failed"], db0, []⟩ := by
  have he : ¬ (req.exponent ≤ 0 ∨ 100 < req.exponent) := by
    push_neg
    exact ⟨by linarith, by linarith⟩
  simp [generate_calculation_events, not_le.mpr hb, he, hins, errorExit, emit]

theorem gen_startFail_emitted (env : Env) (cid : String) (db0 : DB)
    (req : CalculationRequest) (hb : 0 < req.base) (hlo : 1 ≤ req.exponent)
    (hhi : req.exponent ≤ 100) (hins : env.insertFails = false)
    (hstart : env.logStartedFails = true) :
    (generate_calculation_events env cid db0 req).emitted
      = [.start cid req.base req.exponent, .error "log_event failed"] := by
  have he : ¬ (req.exponent ≤ 0 ∨ 100 < req.exponent) := by
    push_neg
    exact ⟨by linarith, by linarith⟩
  cases herr : env.logErrorFails <;>
    simp [generate_calculation_events, not_le.mpr hb, he, hins, hstart, errorExit, herr, emit]

theorem gen_startFail_attemptTypes (env : Env) (cid : String) (db0 : DB)
    (req : CalculationRequest) (hb : 0 < req.base) (hlo : 1 ≤ req.exponent)
    (hhi : req.exponent ≤ 100) (hins : env.insertFails = false)
    (hstart : env.logStartedFails = true) :
    (generate_calculation_events env cid db0 req).attempts.map (·.event_type)
      = ["calculation_started", "calculation_error"] := by
  have he : ¬ (req.exponent ≤ 0 ∨ 100 < req.exponent) := by
    push_neg
    exact ⟨by linarith, by linarith⟩
  cases herr : env.logErrorFails <;>
    simp [generate_calculation_events, not_le.mpr hb, he, hins, hstart, errorExit, herr,
      log_event, eventDoc, emit]

theorem gen_startFail_calculations (env : Env) (cid : String) (db0 : DB)
    (req : CalculationRequest) (hb : 0 < req.base) (hlo : 1 ≤ req.exponent)
    (hhi : req.exponent ≤ 100) (hins : env.insertFails = false)
    (hstart : env.logStartedFails = true) :
    (generate_calculation_events env cid db0 req).db.calculations
      = db0.calculations ++ [initialRecord cid req] := by
  have he : ¬ (req.exponent ≤ 0 ∨ 100 < req.exponent) := by
    push_neg
    exact ⟨by linarith, by linarith⟩
  cases herr : env.logErrorFails <;>
    simp [generate_calculation_events, not_le.mpr hb, he, hins, hstart, errorExit, herr,
      log_event, eventDoc, emit]

theorem gen_success_emitted (env : Env) (cid : String) (db0 : DB)
    (req : CalculationRequest) (hb : 0 < req.base) (hlo : 1 ≤ req.exponent)
    (hhi : req.exponent ≤ 100) (hins : env.insertFails = false)
    (hstart : env.logStartedFails = false) :
    (generate_calculation_events env cid db0 req).emitted = normalStream cid req := by
  have he : ¬ (req.exponent ≤ 0 ∨ 100 < req.exponent) := by
    push_neg
    exact ⟨by linarith, by linarith⟩
  cases hupd : env.updateFails <;>
    simp [generate_calculation_events, not_le.mpr hb, he, hins, hstart, hupd,
      foldl_stepIter_emitted, normalStream, emit]

theorem updateCompleted_append_fresh (cid : String) (linF expF : ℚ) (steps : ℤ)
    (l0 : List CalcDoc) (es : List EventDoc) (c : CalcDoc)
    (hfresh : ∀ x ∈ l0, x.id ≠ cid) (hc : c.id = cid) :
    updateCompleted cid linF expF steps ⟨l0 ++ [c], es⟩
      = ⟨l0 ++ [{ c with
          status := "completed"
          completed_at_set := true
          linear_result := some linF
          exponential_result := some expF
          total_steps := some steps }], es⟩ := by
  simp only [updateCompleted, List.map_append, List.map_cons, List.map_nil, hc, if_pos,
    DB.mk.injEq, List.append_cancel_right_eq, and_true]
  conv_rhs => rw [← List.map_id l0]
  exact List.map_congr_left fun x hx => by simp [hfresh x hx]

theorem gen_updateFail_calculations (env : Env) (cid : String) (db0 : DB)
    (req : CalculationRequest) (hb : 0 < req.base) (hlo : 1 ≤ req.exponent)
    (hhi : req.exponent ≤ 100) (hins : env.insertFails = false)
    (hstart : env.logStartedFails = false) (hupd : env.updateFails = true) :
    (generate_calculation_events env cid db0 req).db.calculations
      = db0.calculations ++ [initialRecord cid req] := by
  have he : ¬ (req.exponent ≤ 0 ∨ 100 < req.exponent) := by
    push_neg
    exact ⟨by linarith, by linarith⟩
  simp [generate_calculation_events, not_le.mpr hb, he, hins, hstart, hupd,
    foldl_stepIter_calculations, emit]

theorem gen_success_calculations (env : Env) (cid : String) (db0 : DB)
    (req : CalculationRequest) (hb : 0 < req.base) (hlo : 1 ≤ req.exponent)
    (hhi : req.exponent ≤ 100) (hins : env.insertFails = false)
    (hstart : env.logStartedFails = false) (hupd : env.updateFails = false)
    (hfresh : ∀ x ∈ db0.calculations, x.id ≠ cid) :
    (generate_calculation_events env cid db0 req).db.calculations
      = db0.calculations ++ [completedRecord cid req] := by
  have he : ¬ (req.exponent ≤ 0 ∨ 100 < req.exponent) := by
    push_neg
    exact ⟨by linarith, by linarith⟩
  have hdb : ∀ st : RunState,
      st.db.calculations = db0.calculations ++ [initialRecord cid req] →
      (updateCompleted cid (req.base * (req.exponent : ℚ)) (req.base ^ req.exponent.toNat)
        req.exponent st.db).calculations
        = db0.calculations ++ [completedRecord cid req] := by
    intro st hst
    have : st.db = ⟨db0.calculations ++ [initialRecord cid req], st.db.events⟩ := by
      cases h : st.db
      simp_all
    rw [this,
      updateCompleted_append_fresh cid _ _ _ _ _ (initialRecord cid req) hfresh rfl]
    rfl
  simp only [generate_calculation_events, not_le.mpr hb, he, if_neg, if_false, hins,
    Bool.false_eq_true, hstart, log_event_snd, Bool.not_false, if_true, hupd,
    emit_emitted, emit_db, emit_attempts, log_event_fst_calculations]
  apply hdb
  rw [foldl_stepIter_calculations]
  simp [log_event, emit]

theorem gen_success_attemptTypes (env : Env) (cid : String) (db0 : DB)
    (req : CalculationRequest) (hb : 0 < req.base) (hlo : 1 ≤ req.exponent)
    (hhi : req.exponent ≤ 100) (hins : env.insertFails = false)
    (hstart : env.logStartedFails = false) (hupd : env.updateFails = false)
    (hlin : ∀ i, env.logLinearFails i = false) :
    (generate_calculation_events env cid db0 req).attempts.map (·.event_type)
      = "calculation_started" :: stepTypes req.exponent.toNat
          ++ ["calculation_completed"] := by
  have he : ¬ (req.exponent ≤ 0 ∨ 100 < req.exponent) := by
    push_neg
    exact ⟨by linarith, by linarith⟩
  simp [generate_calculation_events, not_le.mpr hb, he, hins, hstart, hupd,
    foldl_stepIter_attemptTypes env cid req.base hlin, stepTypes, emit]

/-! ### Branch lemmas for the synchronous endpoint -/

theorem sync_invalid_base (env : Env) (cid : String) (db0 : DB) (req : CalculationRequest)
    (h : req.base ≤ 0) :
    calculate_growth env cid db0 req
      = (.httpError 400 "Base must be positive", ⟨[], db0, []⟩) := by
  simp [calculate_growth, h]

theorem sync_invalid_exponent (env : Env) (cid : String) (db0 : DB)
    (req : CalculationRequest) (hb : 0 < req.base)
    (he : req.exponent ≤ 0 ∨ 100 < req.exponent) :
    calculate_growth env cid db0 req
      = (.httpError 400 "Exponent must be between 1 and 100", ⟨[], db0, []⟩) := by
  simp [calculate_growth, not_le.mpr hb, he]

theorem syncError_outcome (env : Env) (hasId : Bool) (cid msg : String) (st : RunState) :
    (syncError env hasId cid msg st).1
      = if env.logErrorFails then .unhandled "log_event failed" else .httpError 500 msg := by
  cases herr : env.logErrorFails <;> simp [syncError, herr]

theorem syncError_attemptTypes (env : Env) (hasId : Bool) (cid msg : String)
    (st : RunState) :
    (syncError env hasId cid msg st).2.attempts.map (·.event_type)
      = st.attempts.map (·.event_type) ++ ["calculation_error"] := by
  cases herr : env.logErrorFails <;> simp [syncError, herr]

theorem syncError_calculations (env : Env) (hasId : Bool) (cid msg : String)
    (st : RunState) :
    (syncError env hasId cid msg st).2.db.calculations = st.db.calculations := by
  cases herr : env.logErrorFails <;> simp [syncError, herr]

theorem syncError_event_mem (env : Env) (hasId : Bool) (cid msg : String) (st : RunState)
    (h : env.logErrorFails = false) :
    ∃ e ∈ (syncError env hasId cid msg st).2.db.events,
      e.event_type = "calculation_error" := by
  refine ⟨eventDoc (if hasId then cid else "unknown") "calculation_error"
    ("Error: " ++ msg) (some [("error", .s msg)]), ?_, rfl⟩
  cases hasId <;> simp [syncError, h, log_event]

theorem sync_insertFail_eq (env : Env) (cid : String) (db0 : DB)
    (req : CalculationRequest) (hb : 0 < req.base) (hlo : 1 ≤ req.exponent)
    (hhi : req.exponent ≤ 100) (hins : env.insertFails = true) :
    calculate_growth env cid db0 req
      = syncError env false cid "insert_one failed" ⟨[], db0, []⟩ := by
  have he : ¬ (req.exponent ≤ 0 ∨ 100 < req.exponent) := by
    push_neg
    exact ⟨by linarith, by linarith⟩
  simp [calculate_growth, not_le.mpr hb, he, hins]

theorem sync_startFail_eq (env : Env) (cid : String) (db0 : DB)
    (req : CalculationRequest) (hb : 0 < req.base) (hlo : 1 ≤ req.exponent)
    (hhi : req.exponent ≤ 100) (hins : env.insertFails = false)
    (hstart : env.logStartedFails = true) :
    calculate_growth env cid db0 req
      = syncError env true cid "log_event failed"
          ⟨[], ⟨db0.calculations ++ [initialRecord cid req], db0.events⟩,
            [startedDoc cid req]⟩ := by
  have he : ¬ (req.exponent ≤ 0 ∨ 100 < req.exponent) := by
    push_neg
    exact ⟨by linarith, by linarith⟩
  simp [calculate_growth, not_le.mpr hb, he, hins, hstart, log_event, startedDoc]

theorem sync_updateFail_eq (env : Env) (cid : String) (db0 : DB)
    (req : CalculationRequest) (hb : 0 < req.base) (hlo : 1 ≤ req.exponent)
    (hhi : req.exponent ≤ 100) (hins : env.insertFails = false)
    (hstart : env.logStartedFails = false) (hupd : env.updateFails = true) :
    calculate_growth env cid db0 req
      = syncError env true cid "update_one failed"
          ⟨[], ⟨db0.calculations ++ [initialRecord cid req],
              db0.events ++ [startedDoc cid req]⟩,
            [startedDoc cid req]⟩ := by
  have he : ¬ (req.exponent ≤ 0 ∨ 100 < req.exponent) := by
    push_neg
    exact ⟨by linarith, by linarith⟩
  simp [calculate_growth, not_le.mpr hb, he, hins, hstart, hupd, log_event, startedDoc]

theorem sync_completedFail_eq (env : Env) (cid : String) (db0 : DB)
    (req : CalculationRequest) (hb : 0 < req.base) (hlo : 1 ≤ req.exponent)
    (hhi : req.exponent ≤ 100) (hins : env.insertFails = false)
    (hstart : env.logStartedFails = false) (hupd : env.updateFails = false)
    (hcomp : env.logCompletedFails = true) :
    calculate_growth env cid db0 req
      = syncError env true cid "log_event failed"
          ⟨[], updateCompleted cid (req.base * (req.exponent : ℚ))
              (req.base ^ req.exponent.toNat) req.exponent
              ⟨db0.calculations ++ [initialRecord cid req],
                db0.events ++ [startedDoc cid req]⟩,
            [startedDoc cid req, completedDoc cid]⟩ := by
  have he : ¬ (req.exponent ≤ 0 ∨ 100 < req.exponent) := by
    push_neg
    exact ⟨by linarith, by linarith⟩
  simp [calculate_growth, not_le.mpr hb, he, hins, hstart, hupd, hcomp, log_event,
    startedDoc, completedDoc]

/-- The three post-record failure points of the synchronous endpoint all
funnel into the `except Exception` handler. -/
theorem sync_postFailure_reduces (env : Env) (cid : String) (db0 : DB)
    (req : CalculationRequest) (hb : 0 < req.base) (hlo : 1 ≤ req.exponent)
    (hhi : req.exponent ≤ 100) (hins : env.insertFails = false)
    (hfail : env.logStartedFails = true ∨ env.updateFails = true
      ∨ env.logCompletedFails = true) :
    ∃ msg st, calculate_growth env cid db0 req = syncError env true cid msg st := by
  cases hstart : env.logStartedFails with
  | true => exact ⟨_, _, sync_startFail_eq env cid db0 req hb hlo hhi hins hstart⟩
  | false =>
    cases hupd : env.updateFails with
    | true => exact ⟨_, _, sync_updateFail_eq env cid db0 req hb hlo hhi hins hstart hupd⟩
    | false =>
      cases hcomp : env.logCompletedFails with
      | true =>
        exact ⟨_, _, sync_completedFail_eq env cid db0 req hb hlo hhi hins hstart hupd hcomp⟩
      | false => simp_all

theorem sync_success_attemptTypes (env : Env) (cid : String) (db0 : DB)
    (req : CalculationRequest) (hb : 0 < req.base) (hlo : 1 ≤ req.exponent)
    (hhi : req.exponent ≤ 100) (hins : env.insertFails = false)
    (hstart : env.logStartedFails = false) (hupd : env.updateFails = false)
    (hcomp : env.logCompletedFails = false) :
    (calculate_growth env cid db0 req).2.attempts.map (·.event_type)
      = ["calculation_started", "calculation_completed"] := by
  have he : ¬ (req.exponent ≤ 0 ∨ 100 < req.exponent) := by
    push_neg
    exact ⟨by linarith, by linarith⟩
  simp [calculate_growth, not_le.mpr hb, he, hins, hstart, hupd, hcomp, log_event,
    eventDoc]

/-! ### Projection lemmas for the emitted stream -/

@[simp] theorem stepsOf_nil : stepsOf [] = [] := rfl

@[simp] theorem stepsOf_cons_start (c : String) (b : ℚ) (e : ℤ) (l : List StreamEvent) :
    stepsOf (.start c b e :: l) = stepsOf l := rfl

@[simp] theorem stepsOf_cons_step (i : ℕ) (lo : String) (lv : ℚ) (eo : String) (ev : ℚ)
    (l : List StreamEvent) : stepsOf (.step i lo lv eo ev :: l) = (i, lv, ev) :: stepsOf l :=
  rfl

@[simp] theorem stepsOf_cons_complete (c : String) (lv ev : ℚ) (n : ℤ)
    (l : List StreamEvent) : stepsOf (.complete c lv ev n :: l) = stepsOf l := rfl

@[simp] theorem stepsOf_cons_error (m : String) (l : List StreamEvent) :
    stepsOf (.error m :: l) = stepsOf l := rfl

@[simp] theorem stepsOf_append (l1 l2 : List StreamEvent) :
    stepsOf (l1 ++ l2) = stepsOf l1 ++ stepsOf l2 :=
  List.filterMap_append l1 l2 _

@[simp] theorem completesOf_nil : completesOf [] = [] := rfl

@[simp] theorem completesOf_cons_start (c : String) (b : ℚ) (e : ℤ)
    (l : List StreamEvent) : completesOf (.start c b e :: l) = completesOf l := rfl

@[simp] theorem completesOf_cons_step (i : ℕ) (lo : String) (lv : ℚ) (eo : String)
    (ev : ℚ) (l : List StreamEvent) :
    completesOf (.step i lo lv eo ev :: l) = completesOf l := rfl

@[simp] theorem completesOf_cons_complete (c : String) (lv ev : ℚ) (n : ℤ)
    (l : List StreamEvent) :
    completesOf (.complete c lv ev n :: l) = (lv, ev, n) :: completesOf l := rfl

@[simp] theorem completesOf_cons_error (m : String) (l : List StreamEvent) :
    completesOf (.error m :: l) = completesOf l := rfl

@[simp] theorem completesOf_append (l1 l2 : List StreamEvent) :
    completesOf (l1 ++ l2) = completesOf l1 ++ completesOf l2 :=
  List.filterMap_append l1 l2 _

@[simp] theorem errorsOf_nil : errorsOf [] = [] := rfl

@[simp] theorem errorsOf_cons_start (c : String) (b : ℚ) (e : ℤ) (l : List StreamEvent) :
    errorsOf (.start c b e :: l) = errorsOf l := rfl

@[simp] theorem errorsOf_cons_step (i : ℕ) (lo : String) (lv : ℚ) (eo : String) (ev : ℚ)
    (l : List StreamEvent) : errorsOf (.step i lo lv eo ev :: l) = errorsOf l := rfl

@[simp] theorem errorsOf_cons_complete (c : String) (lv ev : ℚ) (n : ℤ)
    (l : List StreamEvent) : errorsOf (.complete c lv ev n :: l) = errorsOf l := rfl

@[simp] theorem errorsOf_cons_error (m : String) (l : List StreamEvent) :
    errorsOf (.error m :: l) = m :: errorsOf l := rfl

@[simp] theorem errorsOf_append (l1 l2 : List StreamEvent) :
    errorsOf (l1 ++ l2) = errorsOf l1 ++ errorsOf l2 :=
  List.filterMap_append l1 l2 _

theorem stepsOf_map_stepEvent (b : ℚ) :
    ∀ l : List ℕ, stepsOf (l.map (stepEvent b)) = l.map fun i : ℕ => (i, b * (i : ℚ), b ^ i)
  | [] => rfl
  | i :: l => by
    simp [stepEvent, stepsOf_map_stepEvent b l]

theorem completesOf_map_stepEvent (b : ℚ) :
    ∀ l : List ℕ, completesOf (l.map (stepEvent b)) = []
  | [] => rfl
  | i :: l => by
    simp [stepEvent, completesOf_map_stepEvent b l]

theorem errorsOf_map_stepEvent (b : ℚ) :
    ∀ l : List ℕ, errorsOf (l.map (stepEvent b)) = []
  | [] => rfl
  | i :: l => by
    simp [stepEvent, errorsOf_map_stepEvent b l]

theorem stepsOf_normalStream (cid : String) (req : CalculationRequest) :
    stepsOf (normalStream cid req)
      = (List.range' 1 req.exponent.toNat).map
          fun i : ℕ => (i, req.base * (i : ℚ), req.base ^ i) := by
  simp [normalStream, stepsOf_map_stepEvent]

theorem completesOf_normalStream (cid : String) (req : CalculationRequest) :
    completesOf (normalStream cid req)
      = [(req.base * (req.exponent : ℚ), req.base ^ req.exponent.toNat, req.exponent)] := by
  simp [normalStream, completesOf_map_stepEvent]

theorem errorsOf_normalStream (cid : String) (req : CalculationRequest) :
    errorsOf (normalStream cid req) = [] := by
  simp [normalStream, errorsOf_map_stepEvent]

theorem getLast?_steps_range' (b : ℚ) (n : ℕ) (hn : 1 ≤ n) :
    ((List.range' 1 n).map fun i : ℕ => (i, b * (i : ℚ), b ^ i)).getLast?
      = some (n, b * (n : ℚ), b ^ n) := by
  obtain ⟨m, rfl⟩ : ∃ m, n = m + 1 := ⟨n - 1, by omega⟩
  rw [List.range'_concat, List.map_append]
  have h1 : 1 + 1 * m = m + 1 := by omega
  rw [h1]
  exact List.getLast?_concat _

/-! ### Preservation of non-null journal payloads -/

@[simp] theorem updateCompleted_events (cid : String) (linF expF : ℚ) (steps : ℤ)
    (db : DB) : (updateCompleted cid linF expF steps db).events = db.events := rfl

theorem dataOk_log_event (f : Bool) (c t m : String) (d : Option Payload) (st : RunState)
    (h : dataOk st.db = true) : dataOk ((log_event f c t m d st).1).db = true := by
  cases f <;> simp_all [dataOk, log_event, eventDoc]

theorem dataOk_stepIter (env : Env) (cid : String) (b : ℚ) (st : RunState) (i : ℕ)
    (h : dataOk st.db = true) : dataOk (stepIter env cid b st i).db = true := by
  cases hl : env.logLinearFails i <;>
    · simp only [stepIter, hl, log_event_snd, Bool.not_false, Bool.not_true, if_true,
        if_false, ite_true, ite_false]
      first
      | exact dataOk_log_event _ _ _ _ _ _ (dataOk_log_event _ _ _ _ _ _ h)
      | exact dataOk_log_event _ _ _ _ _ _ h

theorem dataOk_foldl_stepIter (env : Env) (cid : String) (b : ℚ) :
    ∀ (l : List ℕ) (st : RunState), dataOk st.db = true →
      dataOk ((l.foldl (stepIter env cid b) st).db) = true
  | [], _, h => h
  | i :: l, st, h =>
    dataOk_foldl_stepIter env cid b l (stepIter env cid b st i)
      (dataOk_stepIter env cid b st i h)

theorem dataOk_errorExit (env : Env) (cid msg : String) (hasId : Bool) (st : RunState)
    (h : dataOk st.db = true) : dataOk (errorExit env cid msg hasId st).db = true := by
  cases hasId with
  | true => exact dataOk_log_event _ _ _ _ _ _ h
  | false => exact h

theorem dataOk_syncError (env : Env) (hasId : Bool) (cid msg : String) (st : RunState)
    (h : dataOk st.db = true) : dataOk (syncError env hasId cid msg st).2.db = true := by
  cases herr : env.logErrorFails <;>
    · simp only [syncError, herr, log_event_snd, Bool.not_false, Bool.not_true]
      exact dataOk_log_event _ _ _ _ _ _ h

theorem dataOk_gen (env : Env) (cid : String) (db0 : DB) (req : CalculationRequest)
    (h : dataOk db0 = true) :
    dataOk (generate_calculation_events env cid db0 req).db = true := by
  by_cases h1 : req.base ≤ 0
  · rw [gen_invalid_base env cid db0 req h1]
    exact h
  by_cases h2 : req.exponent ≤ 0 ∨ 100 < req.exponent
  · rw [gen_invalid_exponent env cid db0 req (lt_of_not_le h1) h2]
    exact h
  cases hins : env.insertFails with
  | true =>
    have hlo : 1 ≤ req.exponent := by push_neg at h2; omega
    have hhi : req.exponent ≤ 100 := by push_neg at h2; omega
    rw [gen_insertFail env cid db0 req (lt_of_not_le h1) hlo hhi hins]
    exact h
  | false =>
    cases hstart : env.logStartedFails with
    | true =>
      simp [generate_calculation_events, h1, h2, hins, hstart]
      refine dataOk_errorExit _ _ _ _ _ ?_
      refine dataOk_log_event _ _ _ _ _ _ ?_
      exact h
    | false =>
      cases hupd : env.updateFails with
      | true =>
        simp [generate_calculation_events, h1, h2, hins, hstart, hupd]
        refine dataOk_foldl_stepIter env cid req.base _ _ ?_
        refine dataOk_log_event _ _ _ _ _ _ ?_
        exact h
      | false =>
        simp [generate_calculation_events, h1, h2, hins, hstart, hupd]
        refine dataOk_log_event _ _ _ _ _ _ ?_
        refine dataOk_foldl_stepIter env cid req.base _ _ ?_
        refine dataOk_log_event _ _ _ _ _ _ ?_
        exact h

theorem dataOk_sync (env : Env) (cid : String) (db0 : DB) (req : CalculationRequest)
    (h : dataOk db0 = true) :
    dataOk (calculate_growth env cid db0 req).2.db = true := by
  by_cases h1 : req.base ≤ 0
  · rw [sync_invalid_base env cid db0 req h1]
    exact h
  by_cases h2 : req.exponent ≤ 0 ∨ 100 < req.exponent
  · rw [sync_invalid_exponent env cid db0 req (lt_of_not_le h1) h2]
    exact h
  cases hins : env.insertFails with
  | true =>
    simp [calculate_growth, h1, h2, hins]
    refine dataOk_syncError _ _ _ _ _ ?_
    exact h
  | false =>
    cases hstart : env.logStartedFails with
    | true =>
      simp [calculate_growth, h1, h2, hins, hstart]
      refine dataOk_syncError _ _ _ _ _ ?_
      refine dataOk_log_event _ _ _ _ _ _ ?_
      exact h
    | false =>
      cases hupd : env.updateFails with
      | true =>
        simp [calculate_growth, h1, h2, hins, hstart, hupd]
        refine dataOk_syncError _ _ _ _ _ ?_
        refine dataOk_log_event _ _ _ _ _ _ ?_
        exact h
      | false =>
        cases hcomp : env.logCompletedFails with
        | true =>
          simp [calculate_growth, h1, h2, hins, hstart, hupd, hcomp]
          refine dataOk_syncError _ _ _ _ _ ?_
          refine dataOk_log_event _ _ _ _ _ _ ?_
          refine dataOk_log_event _ _ _ _ _ _ ?_
          exact h
        | false =>
          simp [calculate_growth, h1, h2, hins, hstart, hupd, hcomp]
          refine dataOk_log_event _ _ _ _ _ _ ?_
          refine dataOk_log_event _ _ _ _ _ _ ?_
          exact h

/-! ## Claim theorems -/

/-- C1: for every valid request (base > 0, exponent in [1,100]) processed by
the streamed endpoint (record insert and `calculation_started` journal write
succeeding; per-step journal failures arbitrary), the `step` messages carry
indices exactly 1..E in strictly increasing order with no gaps, repeats or
reordering, with values B*i and B^i; the single `complete` message carries
totals B*E and B^E; and those totals equal the step-E values exactly. -/
theorem C1_stream_steps_and_totals (env : Env) (cid : String) (db0 : DB)
    (req : CalculationRequest) (hb : 0 < req.base) (hlo : 1 ≤ req.exponent)
    (hhi : req.exponent ≤ 100) (hins : env.insertFails = false)
    (hstart : env.logStartedFails = false) :
    stepsOf (generate_calculation_events env cid db0 req).emitted
        = (List.range' 1 req.exponent.toNat).map
            (fun i : ℕ => (i, req.base * (i : ℚ), req.base ^ i))
      ∧ completesOf (generate_calculation_events env cid db0 req).emitted
          = [(req.base * (req.exponent : ℚ), req.base ^ req.exponent.toNat, req.exponent)]
      ∧ (stepsOf (generate_calculation_events env cid db0 req).emitted).getLast?
          = some (req.exponent.toNat, req.base * (req.exponent : ℚ),
              req.base ^ req.exponent.toNat) := by
  have hrun := gen_success_emitted env cid db0 req hb hlo hhi hins hstart
  have hcast : ((req.exponent.toNat : ℕ) : ℚ) = (req.exponent : ℚ) := by
    have h0 : (0 : ℤ) ≤ req.exponent := by linarith
    exact_mod_cast congrArg (fun z : ℤ => (z : ℚ)) (Int.toNat_of_nonneg h0)
  have hn : 1 ≤ req.exponent.toNat := by omega
  refine ⟨?_, ?_, ?_⟩
  · rw [hrun, stepsOf_normalStream]
  · rw [hrun, completesOf_normalStream]
  · rw [hrun, stepsOf_normalStream, getLast?_steps_range' req.base req.exponent.toNat hn,
      hcast]

/-- C1 witness: the valid request B=2, E=3 through the fully reliable
environment. -/
theorem C1_witness :
    (0 : ℚ) < 2 ∧ (1 : ℤ) ≤ 3 ∧ (3 : ℤ) ≤ 100
      ∧ stepsOf (generate_calculation_events envOK "c" emptyDB ⟨2, 3⟩).emitted
          = (List.range' 1 (3 : ℤ).toNat).map
              (fun i : ℕ => (i, (2 : ℚ) * (i : ℚ), (2 : ℚ) ^ i))
      ∧ completesOf (generate_calculation_events envOK "c" emptyDB ⟨2, 3⟩).emitted
          = [((2 : ℚ) * ((3 : ℤ) : ℚ), (2 : ℚ) ^ (3 : ℤ).toNat, (3 : ℤ))] :=
  ⟨by norm_num, by norm_num, by norm_num,
    (C1_stream_steps_and_totals envOK "c" emptyDB ⟨2, 3⟩ (by norm_num) (by norm_num)
      (by norm_num) rfl rfl).1,
    (C1_stream_steps_and_totals envOK "c" emptyDB ⟨2, 3⟩ (by norm_num) (by norm_num)
      (by norm_num) rfl rfl).2.1⟩

/-- C2 counterexample: the request (base = -1, exponent = 0) has its exponent
outside [1,100], yet the caller receives the InvalidBase error ("Base must be
positive"), not the InvalidExponent error, on both endpoints — validation
checks the base first. -/
theorem C2_counterexample :
    (generate_calculation_events envOK "c" emptyDB ⟨-1, 0⟩).emitted
        = [.error "Base must be positive"]
      ∧ (calculate_growth envOK "c" emptyDB ⟨-1, 0⟩).1
          = .httpError 400 "Base must be positive"
      ∧ StreamEvent.error "Base must be positive"
          ≠ .error "Exponent must be between 1 and 100" := by
  refine ⟨by decide, by decide, by decide⟩

/-- C2 amended: every request with base ≤ 0 receives the InvalidBase error,
and every request with positive base and exponent outside [1,100] receives
the InvalidExponent error; in both cases no record is inserted, no journal
write is even initiated, the store is untouched, and the streamed endpoint
emits exactly one `error` message. -/
theorem C2_validation (env : Env) (cid : String) (db0 : DB)
    (req : CalculationRequest) :
    (req.base ≤ 0 →
      generate_calculation_events env cid db0 req
          = ⟨[.error "Base must be positive"], db0, []⟩
        ∧ calculate_growth env cid db0 req
            = (.httpError 400 "Base must be positive", ⟨[], db0, []⟩))
    ∧ (0 < req.base → req.exponent ≤ 0 ∨ 100 < req.exponent →
      generate_calculation_events env cid db0 req
          = ⟨[.error "Exponent must be between 1 and 100"], db0, []⟩
        ∧ calculate_growth env cid db0 req
            = (.httpError 400 "Exponent must be between 1 and 100", ⟨[], db0, []⟩)) :=
  ⟨fun h => ⟨gen_invalid_base env cid db0 req h, sync_invalid_base env cid db0 req h⟩,
   fun hb he => ⟨gen_invalid_exponent env cid db0 req hb he,
     sync_invalid_exponent env cid db0 req hb he⟩⟩

/-- C2 witness: base -2 is rejected as InvalidBase; exponent 0 with base 2 is
rejected as InvalidExponent; the stores stay empty. -/
theorem C2_witness :
    ((-2 : ℚ) ≤ 0
      ∧ generate_calculation_events envOK "c" emptyDB ⟨-2, 5⟩
          = ⟨[.error "Base must be positive"], emptyDB, []⟩)
    ∧ ((0 : ℚ) < 2 ∧ ((0 : ℤ) ≤ 0 ∨ 100 < (0 : ℤ))
      ∧ calculate_growth envOK "c" emptyDB ⟨2, 0⟩
          = (.httpError 400 "Exponent must be between 1 and 100", ⟨[], emptyDB, []⟩)) :=
  ⟨⟨by norm_num, ((C2_validation envOK "c" emptyDB ⟨-2, 5⟩).1 (by norm_num)).1⟩,
   ⟨by norm_num, Or.inl (by norm_num),
    ((C2_validation envOK "c" emptyDB ⟨2, 0⟩).2 (by norm_num) (Or.inl (by norm_num))).2⟩⟩

/-- C3 counterexample: with the record inserted and the
`calculation_started` journal write failing (an unexpected failure after
record creation), the stream run ends in an error, yet the record's status
is still `in_progress` — it is never transitioned to `error`, so a record
is left permanently in `in_progress`, contradicting the claim. -/
theorem C3_counterexample :
    (generate_calculation_events envStartFail "c" emptyDB ⟨2, 3⟩).db.calculations.map
        (·.status) = ["in_progress"]
      ∧ "in_progress" ≠ "error"
      ∧ errorsOf (generate_calculation_events envStartFail "c" emptyDB ⟨2, 3⟩).emitted
          = ["log_event failed"] := by
  refine ⟨by decide, by decide, by decide⟩

/-- C3 amended: on an unexpected failure after record creation the streamed
engine emits a terminal error message and initiates a best-effort
`calculation_error` journal write, but it does not transition the record:
the record remains `in_progress` (a status of `error` is never written), so
a failed run does leave its record permanently in `in_progress`. -/
theorem C3_error_path (env : Env) (cid : String) (db0 : DB)
    (req : CalculationRequest) (hb : 0 < req.base) (hlo : 1 ≤ req.exponent)
    (hhi : req.exponent ≤ 100) (hins : env.insertFails = false)
    (hstart : env.logStartedFails = true) :
    (generate_calculation_events env cid db0 req).emitted
        = [.start cid req.base req.exponent, .error "log_event failed"]
      ∧ (generate_calculation_events env cid db0 req).attempts.map (·.event_type)
          = ["calculation_started", "calculation_error"]
      ∧ (generate_calculation_events env cid db0 req).db.calculations
          = db0.calculations ++ [initialRecord cid req]
      ∧ (initialRecord cid req).status = "in_progress" :=
  ⟨gen_startFail_emitted env cid db0 req hb hlo hhi hins hstart,
   gen_startFail_attemptTypes env cid db0 req hb hlo hhi hins hstart,
   gen_startFail_calculations env cid db0 req hb hlo hhi hins hstart, rfl⟩

/-- C3 witness: the failing-start run at B=2, E=3. -/
theorem C3_witness :
    (0 : ℚ) < 2 ∧ (1 : ℤ) ≤ 3 ∧ (3 : ℤ) ≤ 100
      ∧ envStartFail.insertFails = false ∧ envStartFail.logStartedFails = true
      ∧ (generate_calculation_events envStartFail "c" emptyDB ⟨2, 3⟩).attempts.map
          (·.event_type) = ["calculation_started", "calculation_error"]
      ∧ (generate_calculation_events envStartFail "c" emptyDB ⟨2, 3⟩).db.calculations
          = emptyDB.calculations ++ [initialRecord "c" ⟨2, 3⟩] :=
  ⟨by norm_num, by norm_num, by norm_num, rfl, rfl,
   (C3_error_path envStartFail "c" emptyDB ⟨2, 3⟩ (by norm_num) (by norm_num)
     (by norm_num) rfl rfl).2.1,
   (C3_error_path envStartFail "c" emptyDB ⟨2, 3⟩ (by norm_num) (by norm_num)
     (by norm_num) rfl rfl).2.2.1⟩

/-- C4 counterexample: with only the final `update_one` failing
(`envUpdateFail`), the streamed run at B=2, E=2 still ends with a `complete`
message (one completion, no error message), and the record is left
`in_progress` — the failure is neither surfaced as a terminal failure nor is
the record marked `error`, contradicting the claim. -/
theorem C4_counterexample :
    (completesOf (generate_calculation_events envUpdateFail "c" emptyDB
        ⟨2, 2⟩).emitted).length = 1
      ∧ errorsOf (generate_calculation_events envUpdateFail "c" emptyDB ⟨2, 2⟩).emitted
          = []
      ∧ (generate_calculation_events envUpdateFail "c" emptyDB
          ⟨2, 2⟩).db.calculations.map (·.status) = ["in_progress"] := by
  refine ⟨by decide, by decide, by decide⟩

/-- C4 amended: a failure of the final status update is swallowed in the
streamed mode — the run emits its normal stream ending in `complete` and the
record stays `in_progress` (never `error`); in the synchronous mode the
failure is caught, a `calculation_error` journal write is initiated, and the
caller receives HTTP 500 (when the error journal write itself succeeds),
but the record likewise stays `in_progress`, never `error`. -/
theorem C4_final_update_failure (env : Env) (cid : String) (db0 : DB)
    (req : CalculationRequest) (hb : 0 < req.base) (hlo : 1 ≤ req.exponent)
    (hhi : req.exponent ≤ 100) (hins : env.insertFails = false)
    (hstart : env.logStartedFails = false) (hupd : env.updateFails = true) :
    (generate_calculation_events env cid db0 req).emitted = normalStream cid req
      ∧ (generate_calculation_events env cid db0 req).db.calculations
          = db0.calculations ++ [initialRecord cid req]
      ∧ (calculate_growth env cid db0 req).2.attempts.map (·.event_type)
          = ["calculation_started", "calculation_error"]
      ∧ (env.logErrorFails = false →
          (calculate_growth env cid db0 req).1 = .httpError 500 "update_one failed")
      ∧ (calculate_growth env cid db0 req).2.db.calculations
          = db0.calculations ++ [initialRecord cid req] := by
  have hsync := sync_updateFail_eq env cid db0 req hb hlo hhi hins hstart hupd
  refine ⟨gen_success_emitted env cid db0 req hb hlo hhi hins hstart,
    gen_updateFail_calculations env cid db0 req hb hlo hhi hins hstart hupd,
    ?_, ?_, ?_⟩
  · rw [hsync, syncError_attemptTypes]
    simp [startedDoc, eventDoc]
  · intro herr
    rw [hsync, syncError_outcome, herr]
    simp
  · rw [hsync, syncError_calculations]

/-- C4 witness: B=2, E=2 with only the final update failing. -/
theorem C4_witness :
    (0 : ℚ) < 2 ∧ (1 : ℤ) ≤ 2 ∧ (2 : ℤ) ≤ 100
      ∧ envUpdateFail.insertFails = false ∧ envUpdateFail.logStartedFails = false
      ∧ envUpdateFail.updateFails = true
      ∧ (generate_calculation_events envUpdateFail "c" emptyDB ⟨2, 2⟩).emitted
          = normalStream "c" ⟨2, 2⟩
      ∧ (calculate_growth envUpdateFail "c" emptyDB ⟨2, 2⟩).1
          = .httpError 500 "update_one failed" :=
  ⟨by norm_num, by norm_num, by norm_num, rfl, rfl, rfl,
   (C4_final_update_failure envUpdateFail "c" emptyDB ⟨2, 2⟩ (by norm_num) (by norm_num)
     (by norm_num) rfl rfl rfl).1,
   (C4_final_update_failure envUpdateFail "c" emptyDB ⟨2, 2⟩ (by norm_num) (by norm_num)
     (by norm_num) rfl rfl rfl).2.2.2.1 rfl⟩

/-- C5 counterexample: a failing `calculation_started` journal write aborts
the streamed run at B=2, E=2 — no step message and no completion is emitted,
only an error — contradicting "a failure of any journal write … never aborts
the run … and the run still reaches its normal completion". -/
theorem C5_counterexample :
    stepsOf (generate_calculation_events envStartFail "c" emptyDB ⟨2, 2⟩).emitted = []
      ∧ completesOf (generate_calculation_events envStartFail "c" emptyDB ⟨2, 2⟩).emitted
          = []
      ∧ errorsOf (generate_calculation_events envStartFail "c" emptyDB ⟨2, 2⟩).emitted
          = ["log_event failed"] := by
  refine ⟨by decide, by decide, by decide⟩

/-- C5 amended: per-step journal failures, a `calculation_completed` journal
failure and a final-update failure are all swallowed — the emitted stream is
exactly the normal one and the run completes; but a failure of the
`calculation_started` journal write (which is not locally guarded) aborts
the streamed run: no steps, no completion, a single in-band error. -/
theorem C5_journal_write_failures (env : Env) (cid : String) (db0 : DB)
    (req : CalculationRequest) (hb : 0 < req.base) (hlo : 1 ≤ req.exponent)
    (hhi : req.exponent ≤ 100) (hins : env.insertFails = false) :
    (env.logStartedFails = false →
      (generate_calculation_events env cid db0 req).emitted = normalStream cid req)
    ∧ (env.logStartedFails = true →
        stepsOf (generate_calculation_events env cid db0 req).emitted = []
          ∧ completesOf (generate_calculation_events env cid db0 req).emitted = []
          ∧ errorsOf (generate_calculation_events env cid db0 req).emitted
              = ["log_event failed"]) := by
  constructor
  · intro hstart
    exact gen_success_emitted env cid db0 req hb hlo hhi hins hstart
  · intro hstart
    have hgen := gen_startFail_emitted env cid db0 req hb hlo hhi hins hstart
    rw [hgen]
    refine ⟨rfl, rfl, rfl⟩

/-- C5 witness: with every per-step and completion journal write failing but
`calculation_started` succeeding, the streamed run at B=2, E=2 still emits
its normal stream. -/
theorem C5_witness :
    (0 : ℚ) < 2 ∧ (1 : ℤ) ≤ 2 ∧ (2 : ℤ) ≤ 100
      ∧ envJournalFail.insertFails = false ∧ envJournalFail.logStartedFails = false
      ∧ (generate_calculation_events envJournalFail "c" emptyDB ⟨2, 2⟩).emitted
          = normalStream "c" ⟨2, 2⟩ :=
  ⟨by norm_num, by norm_num, by norm_num, rfl, rfl,
   (C5_journal_write_failures envJournalFail "c" emptyDB ⟨2, 2⟩ (by norm_num)
     (by norm_num) (by norm_num) rfl).1 rfl⟩

/-- C6 counterexample: a fully successful synchronous run at B=2, E=2
initiates only `calculation_started` and `calculation_completed` journal
writes — no `linear_step` (and no `exponential_step`) event is initiated for
any step, contradicting the claim for the synchronous facade. -/
theorem C6_counterexample :
    (calculate_growth envOK "c" emptyDB ⟨2, 2⟩).2.attempts.map (·.event_type)
        = ["calculation_started", "calculation_completed"]
      ∧ "linear_step" ∉ (calculate_growth envOK "c" emptyDB ⟨2, 2⟩).2.attempts.map
          (·.event_type) := by
  refine ⟨by decide, by decide⟩

/-- C6 amended: only the streamed mode journals per-step events — each step i
from 1 to E initiates a `linear_step` then an `exponential_step` event; the
synchronous facade initiates only `calculation_started` and
`calculation_completed`, with no per-step journal events at all. -/
theorem C6_step_journaling (env : Env) (cid : String) (db0 : DB)
    (req : CalculationRequest) (hb : 0 < req.base) (hlo : 1 ≤ req.exponent)
    (hhi : req.exponent ≤ 100) (hins : env.insertFails = false)
    (hstart : env.logStartedFails = false) (hupd : env.updateFails = false)
    (hcomp : env.logCompletedFails = false)
    (hlin : ∀ i, env.logLinearFails i = false) :
    (generate_calculation_events env cid db0 req).attempts.map (·.event_type)
        = "calculation_started" :: stepTypes req.exponent.toNat
            ++ ["calculation_completed"]
      ∧ (calculate_growth env cid db0 req).2.attempts.map (·.event_type)
          = ["calculation_started", "calculation_completed"] :=
  ⟨gen_success_attemptTypes env cid db0 req hb hlo hhi hins hstart hupd hlin,
   sync_success_attemptTypes env cid db0 req hb hlo hhi hins hstart hupd hcomp⟩

/-- C6 witness: the reliable run at B=2, E=2 on both endpoints. -/
theorem C6_witness :
    (0 : ℚ) < 2 ∧ (1 : ℤ) ≤ 2 ∧ (2 : ℤ) ≤ 100
      ∧ (generate_calculation_events envOK "c" emptyDB ⟨2, 2⟩).attempts.map
          (·.event_type)
          = "calculation_started" :: stepTypes (2 : ℤ).toNat
              ++ ["calculation_completed"] :=
  ⟨by norm_num, by norm_num, by norm_num,
   (C6_step_journaling envOK "c" emptyDB ⟨2, 2⟩ (by norm_num) (by norm_num)
     (by norm_num) rfl rfl rfl rfl (fun _ => rfl)).1⟩

/-- C7: on the synchronous endpoint, validation failures yield HTTP 400
(base checked first); any failure after record creation (failing
`calculation_started` write, failing final update, or failing
`calculation_completed` write) is caught, a `calculation_error` journal
write is initiated — and stored, with the caller receiving HTTP 500, when
that write succeeds; if even the error-journal write fails, the exception
escapes the handler (the framework's server-error path).  Bad input is thus
always distinguishable from internal failure. -/
theorem C7_sync_error_discrimination (env : Env) (cid : String) (db0 : DB)
    (req : CalculationRequest) :
    (req.base ≤ 0 →
      (calculate_growth env cid db0 req).1 = .httpError 400 "Base must be positive")
    ∧ (0 < req.base → req.exponent ≤ 0 ∨ 100 < req.exponent →
        (calculate_growth env cid db0 req).1
          = .httpError 400 "Exponent must be between 1 and 100")
    ∧ (0 < req.base → 1 ≤ req.exponent → req.exponent ≤ 100 →
        env.insertFails = false →
        (env.logStartedFails = true ∨ env.updateFails = true
          ∨ env.logCompletedFails = true) →
        "calculation_error"
            ∈ (calculate_growth env cid db0 req).2.attempts.map (·.event_type)
          ∧ (env.logErrorFails = false →
              (∃ d, (calculate_growth env cid db0 req).1 = .httpError 500 d)
                ∧ ∃ e ∈ (calculate_growth env cid db0 req).2.db.events,
                    e.event_type = "calculation_error")
          ∧ (env.logErrorFails = true →
              ∃ m, (calculate_growth env cid db0 req).1 = .unhandled m)) := by
  refine ⟨?_, ?_, ?_⟩
  · intro h
    rw [sync_invalid_base env cid db0 req h]
  · intro hb he
    rw [sync_invalid_exponent env cid db0 req hb he]
  · intro hb hlo hhi hins hfail
    obtain ⟨msg, st, hrun⟩ :=
      sync_postFailure_reduces env cid db0 req hb hlo hhi hins hfail
    rw [hrun]
    refine ⟨?_, fun herr => ⟨⟨msg, ?_⟩, syncError_event_mem env true cid msg st herr⟩,
      fun herr => ⟨"log_event failed", ?_⟩⟩
    · rw [syncError_attemptTypes]
      exact List.mem_append_right _ (List.mem_singleton.mpr rfl)
    · rw [syncError_outcome, herr]
      rfl
    · rw [syncError_outcome, herr]
      rfl

/-- C7 witness: exponent 0 gives 400; a failing final update at B=2, E=2
gives 500 with a `calculation_error` journal write initiated. -/
theorem C7_witness :
    ((0 : ℚ) < 2 ∧ ((0 : ℤ) ≤ 0 ∨ 100 < (0 : ℤ))
      ∧ (calculate_growth envOK "c" emptyDB ⟨2, 0⟩).1
          = .httpError 400 "Exponent must be between 1 and 100")
    ∧ (envUpdateFail.updateFails = true
      ∧ "calculation_error"
          ∈ (calculate_growth envUpdateFail "c" emptyDB ⟨2, 2⟩).2.attempts.map
              (·.event_type)
      ∧ ∃ d, (calculate_growth envUpdateFail "c" emptyDB ⟨2, 2⟩).1
          = .httpError 500 d) :=
  ⟨⟨by norm_num, Or.inl (by norm_num),
    (C7_sync_error_discrimination envOK "c" emptyDB ⟨2, 0⟩).2.1 (by norm_num)
      (Or.inl (by norm_num))⟩,
   ⟨rfl,
    ((C7_sync_error_discrimination envUpdateFail "c" emptyDB ⟨2, 2⟩).2.2 (by norm_num)
      (by norm_num) (by norm_num) rfl (Or.inr (Or.inl rfl))).1,
    (((C7_sync_error_discrimination envUpdateFail "c" emptyDB ⟨2, 2⟩).2.2 (by norm_num)
      (by norm_num) (by norm_num) rfl (Or.inr (Or.inl rfl))).2.1 rfl).1⟩⟩

/-- C9: the streamed endpoint always answers with a success-status event
stream (FastAPI's default 200 on the StreamingResponse): validation
failures, insert failures and run failures are all delivered only in-band as
an `error` message in the stream body, never as an HTTP error status. -/
theorem C9_stream_inband_errors (env : Env) (cid : String) (db0 : DB)
    (req : CalculationRequest) :
    (calculate_growth_stream env cid db0 req).1.status_code = 200
      ∧ (req.base ≤ 0 →
          (calculate_growth_stream env cid db0 req).1.body
            = [.error "Base must be positive"])
      ∧ (0 < req.base → req.exponent ≤ 0 ∨ 100 < req.exponent →
          (calculate_growth_stream env cid db0 req).1.body
            = [.error "Exponent must be between 1 and 100"])
      ∧ (0 < req.base → 1 ≤ req.exponent → req.exponent ≤ 100 →
          env.insertFails = true →
          (calculate_growth_stream env cid db0 req).1.body
            = [.error "insert_one failed"])
      ∧ (0 < req.base → 1 ≤ req.exponent → req.exponent ≤ 100 →
          env.insertFails = false → env.logStartedFails = true →
          errorsOf (calculate_growth_stream env cid db0 req).1.body
            = ["log_event failed"]) := by
  refine ⟨rfl, ?_, ?_, ?_, ?_⟩
  · intro h
    show (generate_calculation_events env cid db0 req).emitted = _
    rw [gen_invalid_base env cid db0 req h]
  · intro hb he
    show (generate_calculation_events env cid db0 req).emitted = _
    rw [gen_invalid_exponent env cid db0 req hb he]
  · intro hb hlo hhi hins
    show (generate_calculation_events env cid db0 req).emitted = _
    rw [gen_insertFail env cid db0 req hb hlo hhi hins]
  · intro hb hlo hhi hins hstart
    show errorsOf (generate_calculation_events env cid db0 req).emitted = _
    rw [gen_startFail_emitted env cid db0 req hb hlo hhi hins hstart]
    rfl

/-- C9 witness: the invalid request (base = -1) still gets status 200 with
the error delivered in the stream body. -/
theorem C9_witness :
    (calculate_growth_stream envOK "c" emptyDB ⟨-1, 5⟩).1.status_code = 200
      ∧ ((-1 : ℚ) ≤ 0
        ∧ (calculate_growth_stream envOK "c" emptyDB ⟨-1, 5⟩).1.body
            = [.error "Base must be positive"]) :=
  ⟨(C9_stream_inband_errors envOK "c" emptyDB ⟨-1, 5⟩).1,
   ⟨by norm_num,
    (C9_stream_inband_errors envOK "c" emptyDB ⟨-1, 5⟩).2.1 (by norm_num)⟩⟩

/-- C10: the document built by `log_event` always stores a non-null `data`
field (Python's `data or` fallback replaces a missing payload by the
empty dict), and consequently, from any store in which every journal event has a
non-null payload, every journal event after a streamed or synchronous run
still has a non-null payload. -/
theorem C10_journal_data_never_null (c t m : String) (d : Option Payload) (env : Env)
    (cid : String) (db0 : DB) (req : CalculationRequest) (h : dataOk db0 = true) :
    (eventDoc c t m d).data.isSome = true
      ∧ dataOk (generate_calculation_events env cid db0 req).db = true
      ∧ dataOk (calculate_growth env cid db0 req).2.db = true :=
  ⟨rfl, dataOk_gen env cid db0 req h, dataOk_sync env cid db0 req h⟩

/-- C10 witness: a payload-less document, and both runs at B=2, E=2 from the
empty store. -/
theorem C10_witness :
    dataOk emptyDB = true
      ∧ (eventDoc "c" "calculation_started" "m" none).data.isSome = true
      ∧ dataOk (generate_calculation_events envOK "c" emptyDB ⟨2, 2⟩).db = true
      ∧ dataOk (calculate_growth envOK "c" emptyDB ⟨2, 2⟩).2.db = true :=
  ⟨rfl,
   (C10_journal_data_never_null "c" "calculation_started" "m" none envOK "c" emptyDB
     ⟨2, 2⟩ rfl).1,
   (C10_journal_data_never_null "c" "calculation_started" "m" none envOK "c" emptyDB
     ⟨2, 2⟩ rfl).2.1,
   (C10_journal_data_never_null "c" "calculation_started" "m" none envOK "c" emptyDB
     ⟨2, 2⟩ rfl).2.2⟩

end GrowthGateway
